import Mathlib

/-!
Verification of the patch-evaluation runner (`src/runner/runner.py`).

The runner is embedded shallowly: every interaction with the outside world
(spawning the test command, copying the source tree, invoking the patch
tool, writing the report file) is represented by a `StepResult` supplied in
an `Env` record, and `runnerRun` replays the control flow of `Runner.run`
over those outcomes, producing both the function result (a report, or a
propagated exception) and a trace of the side effects the claims talk
about (workspace existence, whether the after-run was attempted, the
lifecycle of the temporary diff file).
-/

namespace Runner

/-- Outcome of one Python-level step: a normal return, or a raised
exception carrying its message (`str(exc)`). -/
inductive StepResult (α : Type) where
  | ok : α → StepResult α
  | raises : String → StepResult α
deriving Repr, DecidableEq

/-- Fields of a completed `subprocess.run(..., check=False)`:
`returncode`, `stdout`, `stderr`. -/
structure ProcResult where
  returncode : Int
  stdout : String
  stderr : String
deriving Repr, DecidableEq

/-- The dictionary built by `Runner._run_tests`. -/
structure TestOutcome where
  passed : Bool
  returncode : Int
  stdout : String
  stderr : String
deriving Repr, DecidableEq

/-- The report dictionary assembled by `Runner.run` (lines 47-56). -/
structure Report where
  name : String
  program_dir : String
  patched_dir : Option String
  before : TestOutcome
  after : Option TestOutcome
  patch_applied : Bool
  patch_error : Option String
  status : String
deriving Repr, DecidableEq

/-- Environment of one evaluation: the request parameters together with
what each external step would do if reached. -/
structure Env where
  /-- `Path(program_dir).resolve().is_dir()` -/
  sourceIsDir : Bool
  /-- `source_dir.name` -/
  sourceName : String
  /-- `str(source_dir)` -/
  sourceDir : String
  /-- `str(patched_dir)`, the `mkdtemp` result -/
  workspaceDir : String
  /-- the `subprocess.run` of the baseline test invocation -/
  beforeProc : StepResult ProcResult
  /-- `shutil.copytree(source_dir, patched_dir)` -/
  copyTree : StepResult Unit
  /-- `Path(patch).is_file()` -/
  patchIsFile : Bool
  /-- the `subprocess.run` of `git apply --whitespace=nowarn <diff>` -/
  applyProc : StepResult ProcResult
  /-- the `subprocess.run` of the after-run test invocation -/
  afterProc : StepResult ProcResult
  /-- `report_path is not None` -/
  reportGiven : Bool
  /-- the `mkdir`/`write_text` of step 7, when a report path was given -/
  writeReport : StepResult Unit
  /-- `keep_patched_dir` -/
  keepPatchedDir : Bool
deriving Repr, DecidableEq

/-- `Runner._run_tests`: wraps a completed subprocess result into a
test-outcome dictionary; a spawn failure of `subprocess.run` itself
propagates as the exception it is. -/
def runTests : StepResult ProcResult → StepResult TestOutcome
  | .raises e => .raises e
  | .ok r =>
      .ok { passed := r.returncode == 0
            returncode := r.returncode
            stdout := r.stdout
            stderr := r.stderr }

/-- Python `str.strip()` on the captured streams: leading and trailing
whitespace removed. -/
def pyStrip (s : String) : String :=
  ⟨((s.data.dropWhile Char.isWhitespace).reverse.dropWhile
      Char.isWhitespace).reverse⟩

/-- Line 106: `result.stderr.strip() or result.stdout.strip() or
"patch apply failed"` — Python `or` takes the first non-empty string. -/
def applyErrorText (r : ProcResult) : String :=
  if pyStrip r.stderr ≠ "" then pyStrip r.stderr
  else if pyStrip r.stdout ≠ "" then pyStrip r.stdout
  else "patch apply failed"

/-- What `Runner._apply_patch` did: its result (normal return or raised
exception) plus the lifecycle of the temporary diff file and of a
user-supplied patch file. -/
structure ApplyTrace where
  result : StepResult Unit
  /-- a `NamedTemporaryFile` was created (the literal-diff branch) -/
  tempCreated : Bool
  /-- that temporary file was unlinked by the `finally` block -/
  tempDeleted : Bool
  /-- the user-supplied patch file was deleted (the code never does) -/
  patchFileDeleted : Bool
deriving Repr, DecidableEq

/-- `Runner._apply_patch` (lines 84-110). When the patch argument is an
existing file it is used in place; otherwise the literal diff text is
written to a temporary file, which the `finally` block unlinks on every
exit path — normal return, the `RuntimeError` raised on a non-zero exit,
and a spawn failure of the apply subprocess alike. -/
def applyPatch (patchIsFile : Bool) (proc : StepResult ProcResult) : ApplyTrace :=
  let res : StepResult Unit :=
    match proc with
    | .raises e => .raises e
    | .ok r =>
        if r.returncode ≠ 0 then .raises (applyErrorText r) else .ok ()
  { result := res
    tempCreated := !patchIsFile
    tempDeleted := !patchIsFile
    patchFileDeleted := false }

/-- `Runner._status` (lines 112-120). -/
def runnerStatus (before : TestOutcome) (after : Option TestOutcome)
    (patchApplied : Bool) : String :=
  if patchApplied = false then "patch_failed"
  else
    match after with
    | none => "patch_failed"
    | some a =>
        if !before.passed && a.passed then "repaired"
        else if before.passed && !a.passed then "regressed"
        else "not_repaired"

/-- The `try` block of `Runner.run` (lines 38-43): attempt the patch
apply; on success set `patch_applied = True` and attempt the after-run;
any exception from either step is caught and its message stored as
`patch_error`. Yields `(patch_applied, patch_error, after,
after-run-attempted)`. -/
def tryBlock (env : Env) : Bool × Option String × Option TestOutcome × Bool :=
  match (applyPatch env.patchIsFile env.applyProc).result with
  | .raises e => (false, some e, none, false)
  | .ok _ =>
      match runTests env.afterProc with
      | .raises e => (true, some e, none, true)
      | .ok a => (true, none, some a, true)

/-- Result and side-effect trace of one `Runner.run` call. -/
structure RunTrace where
  result : StepResult Report
  /-- the workspace directory was created at some point -/
  workspaceCreated : Bool
  /-- the workspace directory still exists when the call returns/raises -/
  workspaceExists : Bool
  /-- the after-run test invocation was started -/
  afterRunAttempted : Bool
  tempPatchCreated : Bool
  tempPatchDeleted : Bool
  patchFileDeleted : Bool
deriving Repr, DecidableEq

/-- `Runner.run` (lines 17-66), replayed over the environment.

Control flow of the source: the source-directory check raises before any
side effect; the baseline `_run_tests` runs outside any `try`; the
workspace is created and `copytree` runs outside the `try` as well; the
`try` block covers exactly `_apply_patch` and the after `_run_tests`,
with `patch_applied` set to `True` between the two; `_status` and the
report dictionary follow; the optional report write precedes the cleanup
`rmtree`, which only runs when `keep_patched_dir` is false. -/
def runnerRun (env : Env) : RunTrace :=
  if env.sourceIsDir = false then
    { result := .raises ("Program directory not found: " ++ env.sourceDir)
      workspaceCreated := false, workspaceExists := false
      afterRunAttempted := false
      tempPatchCreated := false, tempPatchDeleted := false
      patchFileDeleted := false }
  else
    match runTests env.beforeProc with
    | .raises e =>
        { result := .raises e
          workspaceCreated := false, workspaceExists := false
          afterRunAttempted := false
          tempPatchCreated := false, tempPatchDeleted := false
          patchFileDeleted := false }
    | .ok before =>
        match env.copyTree with
        | .raises e =>
            { result := .raises e
              workspaceCreated := true, workspaceExists := true
              afterRunAttempted := false
              tempPatchCreated := false, tempPatchDeleted := false
              patchFileDeleted := false }
        | .ok _ =>
            let ap := applyPatch env.patchIsFile env.applyProc
            let step := tryBlock env
            let patchApplied := step.1
            let patchError := step.2.1
            let after := step.2.2.1
            let afterAttempted := step.2.2.2
            let status := runnerStatus before after patchApplied
            let report : Report :=
              { name := env.sourceName
                program_dir := env.sourceDir
                patched_dir :=
                  if env.keepPatchedDir then some env.workspaceDir else none
                before := before
                after := after
                patch_applied := patchApplied
                patch_error := patchError
                status := status }
            match (if env.reportGiven then env.writeReport else .ok ()) with
            | .raises e =>
                { result := .raises e
                  workspaceCreated := true, workspaceExists := true
                  afterRunAttempted := afterAttempted
                  tempPatchCreated := ap.tempCreated
                  tempPatchDeleted := ap.tempDeleted
                  patchFileDeleted := ap.patchFileDeleted }
            | .ok _ =>
                { result := .ok report
                  workspaceCreated := true
                  workspaceExists := env.keepPatchedDir
                  afterRunAttempted := afterAttempted
                  tempPatchCreated := ap.tempCreated
                  tempPatchDeleted := ap.tempDeleted
                  patchFileDeleted := ap.patchFileDeleted }

end Runner

namespace Spec2Proof

open Runner

/-- The try-block ends in exactly one of three states: the apply raised,
the apply succeeded and the after-run raised, or both succeeded. -/
lemma tryBlock_shape (env : Env) :
    (∃ e, tryBlock env = (false, some e, none, false)) ∨
    (∃ e, tryBlock env = (true, some e, none, true)) ∨
    (∃ a, tryBlock env = (true, none, some a, true)) := by
  unfold tryBlock
  cases (applyPatch env.patchIsFile env.applyProc).result with
  | raises e => exact Or.inl ⟨e, rfl⟩
  | ok u =>
      cases runTests env.afterProc with
      | raises e => exact Or.inr (Or.inl ⟨e, rfl⟩)
      | ok a => exact Or.inr (Or.inr ⟨a, rfl⟩)

/-- Any report returned by `runnerRun` has these shapes: its status comes
from `runnerStatus`, and its `(patch_applied, after, patch_error)` triple
is one of the three outcomes of the try-block — apply raised, apply
succeeded but the after-run raised, or both succeeded. -/
lemma runnerRun_ok_shape (env : Env) (r : Report)
    (h : (runnerRun env).result = .ok r) :
    r.status = runnerStatus r.before r.after r.patch_applied ∧
    ((r.patch_applied = false ∧ r.after = none ∧ r.patch_error ≠ none) ∨
     (r.patch_applied = true ∧ r.after = none ∧ r.patch_error ≠ none) ∨
     (r.patch_applied = true ∧ r.after ≠ none ∧ r.patch_error = none)) := by
  unfold runnerRun at h
  cases hs : env.sourceIsDir with
  | false => rw [hs] at h; simp at h
  | true =>
    rw [hs] at h
    simp only [Bool.true_eq_false, if_false] at h
    cases hb : runTests env.beforeProc with
    | raises e => rw [hb] at h; simp at h
    | ok before =>
      rw [hb] at h
      cases hc : env.copyTree with
      | raises e => rw [hc] at h; simp at h
      | ok u =>
        rw [hc] at h
        rcases tryBlock_shape env with ⟨e, ht⟩ | ⟨e, ht⟩ | ⟨a, ht⟩ <;>
          rw [ht] at h <;>
          cases hw : (if env.reportGiven = true then env.writeReport
            else StepResult.ok ()) <;>
          rw [hw] at h <;> simp only [StepResult.ok.injEq] at h <;>
          first
          | exact absurd h (by simp)
          | (rw [← h]
             refine ⟨rfl, ?_⟩)
        · exact Or.inl ⟨rfl, rfl, by simp⟩
        · exact Or.inr (Or.inl ⟨rfl, rfl, by simp⟩)
        · exact Or.inr (Or.inr ⟨rfl, by simp, rfl⟩)

/-- With the patch applied and an after outcome present, `_status` never
returns `"patch_failed"`. -/
lemma runnerStatus_some_ne_patch_failed (b a : TestOutcome) :
    runnerStatus b (some a) true ≠ "patch_failed" := by
  cases hb : b.passed <;> cases ha : a.passed <;>
    simp [runnerStatus, hb, ha]

/-- A passing test outcome used for concrete evaluations. -/
def tPass : TestOutcome :=
  { passed := true, returncode := 0, stdout := "2 passed", stderr := "" }

/-- A failing test outcome used for concrete evaluations. -/
def tFail : TestOutcome :=
  { passed := false, returncode := 1, stdout := "1 failed", stderr := "" }

/-- C1 (amended): in every returned report, `patch_error` is non-null iff
`after` is null, `status` is `"patch_failed"` iff `after` is null, a
non-null `after` forces `patch_applied = true`, and when
`patch_applied` is false all three original biconditionals hold.  (The
original claim's `after`/`patch_applied` biconditional fails when the
after-run raises: see the counterexample.) -/
theorem C1_report_invariants (env : Env) (r : Report)
    (h : (runnerRun env).result = .ok r) :
    (r.patch_error ≠ none ↔ r.after = none) ∧
    (r.status = "patch_failed" ↔ r.after = none) ∧
    (r.after ≠ none → r.patch_applied = true) ∧
    (r.patch_applied = false →
      r.after = none ∧ r.patch_error ≠ none ∧ r.status = "patch_failed") := by
  obtain ⟨hst, hc⟩ := runnerRun_ok_shape env r h
  rcases hc with ⟨ha, hn, he⟩ | ⟨ha, hn, he⟩ | ⟨ha, hn, he⟩
  · have hpf : r.status = "patch_failed" := by
      rw [hst, ha]; simp [runnerStatus]
    exact ⟨by simp [he, hn], by simp [hpf, hn], by simp [hn],
      fun _ => ⟨hn, he, hpf⟩⟩
  · have hpf : r.status = "patch_failed" := by
      rw [hst, ha, hn]; simp [runnerStatus]
    exact ⟨by simp [he, hn], by simp [hpf, hn], fun _ => ha,
      fun hfa => by simp [ha] at hfa⟩
  · obtain ⟨a, hsome⟩ := Option.ne_none_iff_exists.mp hn
    have hnpf : r.status ≠ "patch_failed" := by
      rw [hst, ha, ← hsome]
      exact runnerStatus_some_ne_patch_failed r.before a
    exact ⟨by simp [he, hn], by simp [hnpf, hn], fun _ => ha,
      fun hfa => by simp [ha] at hfa⟩

/-- Environment for the C1 counterexample: the baseline fails, the copy
and the patch apply succeed, and the after-run raises (for instance the
test interpreter disappeared from the patched workspace). -/
def envC1 : Env :=
  { sourceIsDir := true
    sourceName := "case_001"
    sourceDir := "/data/case_001"
    workspaceDir := "/tmp/case_001_patched_x1"
    beforeProc := .ok { returncode := 1, stdout := "1 failed", stderr := "" }
    copyTree := .ok ()
    patchIsFile := false
    applyProc := .ok { returncode := 0, stdout := "", stderr := "" }
    afterProc := .raises "No such file or directory"
    reportGiven := false
    writeReport := .ok ()
    keepPatchedDir := false }

/-- The report `runnerRun envC1` returns. -/
def reportC1 : Report :=
  { name := "case_001"
    program_dir := "/data/case_001"
    patched_dir := none
    before := { passed := false, returncode := 1, stdout := "1 failed", stderr := "" }
    after := none
    patch_applied := true
    patch_error := some "No such file or directory"
    status := "patch_failed" }

/-- C1 counterexample: when the patch applies but the after-run raises,
the returned report has `patch_applied = true` with `after` null,
`patch_error` non-null and `status = "patch_failed"`, violating all
three biconditionals of the claim. -/
theorem C1_counterexample :
    (runnerRun envC1).result = .ok reportC1 ∧
    reportC1.patch_applied = true ∧
    reportC1.after = none ∧
    reportC1.patch_error = some "No such file or directory" ∧
    reportC1.status = "patch_failed" :=
  ⟨rfl, rfl, rfl, rfl, rfl⟩

/-- Witness for C1: the amended invariants, instantiated on a concrete
successful evaluation. -/
theorem C1_report_invariants_witness :
    ((reportC1.patch_error ≠ none ↔ reportC1.after = none) ∧
     (reportC1.status = "patch_failed" ↔ reportC1.after = none) ∧
     (reportC1.after ≠ none → reportC1.patch_applied = true) ∧
     (reportC1.patch_applied = false →
       reportC1.after = none ∧ reportC1.patch_error ≠ none ∧
       reportC1.status = "patch_failed")) :=
  C1_report_invariants envC1 reportC1 rfl

/-- C2: the verdict is a pure function of `(patch_applied, before.passed,
after.passed-or-absence)`: `patch_failed` whenever `patch_applied` is
false; for an applied patch with an after outcome, `repaired` iff the
tests went from failing to passing, `regressed` iff from passing to
failing, `not_repaired` otherwise; and no value outside the four
statuses is ever produced. -/
theorem C2_verdict_table (before : TestOutcome) (after : Option TestOutcome)
    (a : TestOutcome) (applied : Bool) :
    (applied = false → runnerStatus before after applied = "patch_failed") ∧
    (applied = true → after = some a →
      runnerStatus before after applied =
        (if before.passed = false ∧ a.passed = true then "repaired"
         else if before.passed = true ∧ a.passed = false then "regressed"
         else "not_repaired")) ∧
    (runnerStatus before after applied = "patch_failed" ∨
     runnerStatus before after applied = "repaired" ∨
     runnerStatus before after applied = "regressed" ∨
     runnerStatus before after applied = "not_repaired") := by
  refine ⟨fun h => by simp [runnerStatus, h], fun h1 h2 => ?_, ?_⟩
  · subst h1 h2
    cases hb : before.passed <;> cases ha : a.passed <;>
      simp [runnerStatus, hb, ha]
  · cases applied with
    | false => exact Or.inl (by simp [runnerStatus])
    | true =>
      cases after with
      | none => exact Or.inl (by simp [runnerStatus])
      | some a2 =>
        cases hb : before.passed <;> cases ha : a2.passed <;>
          simp [runnerStatus, hb, ha]

/-- Witness for C2: the table evaluated at concrete outcomes — a
failing-then-passing pair is `repaired`, and an unapplied patch is
`patch_failed`. -/
theorem C2_verdict_table_witness :
    runnerStatus tFail (some tPass) true = "repaired" ∧
    runnerStatus tPass none false = "patch_failed" := by
  constructor
  · have h := (C2_verdict_table tFail (some tPass) tPass true).2.1 rfl rfl
    simpa [tFail, tPass] using h
  · exact (C2_verdict_table tPass none tPass false).1 rfl

/-- The argument vector `_apply_patch` passes to `subprocess.run`
(line 99): `git apply --whitespace=nowarn <diff-file>`.  It contains no
flag relaxing context-line matching. -/
def applyCommand (diffFile : String) : List String :=
  ["git", "apply", "--whitespace=nowarn", diffFile]

/-- Environment of a fully successful evaluation: failing baseline,
clean copy, clean apply, passing after-run. -/
def envOk : Env :=
  { sourceIsDir := true
    sourceName := "case_001"
    sourceDir := "/data/case_001"
    workspaceDir := "/tmp/case_001_patched_x3"
    beforeProc := .ok { returncode := 1, stdout := "1 failed", stderr := "" }
    copyTree := .ok ()
    patchIsFile := false
    applyProc := .ok { returncode := 0, stdout := "", stderr := "" }
    afterProc := .ok { returncode := 0, stdout := "2 passed", stderr := "" }
    reportGiven := false
    writeReport := .ok ()
    keepPatchedDir := false }

/-- The report `runnerRun envOk` returns. -/
def reportOk : Report :=
  { name := "case_001"
    program_dir := "/data/case_001"
    patched_dir := none
    before := tFail
    after := some tPass
    patch_applied := true
    patch_error := none
    status := "repaired" }

/-- Environment in which the apply tool exits non-zero with a diagnostic
on stderr. -/
def envApplyFail : Env :=
  { sourceIsDir := true
    sourceName := "case_001"
    sourceDir := "/data/case_001"
    workspaceDir := "/tmp/case_001_patched_x4"
    beforeProc := .ok { returncode := 0, stdout := "2 passed", stderr := "" }
    copyTree := .ok ()
    patchIsFile := true
    applyProc := .ok { returncode := 1, stdout := ""
                       stderr := "error: corrupt patch at line 3" }
    afterProc := .ok { returncode := 0, stdout := "", stderr := "" }
    reportGiven := false
    writeReport := .ok ()
    keepPatchedDir := false }

/-- The report `runnerRun envApplyFail` returns. -/
def reportApplyFail : Report :=
  { name := "case_001"
    program_dir := "/data/case_001"
    patched_dir := none
    before := tPass
    after := none
    patch_applied := false
    patch_error := some "error: corrupt patch at line 3"
    status := "patch_failed" }

/-- Environment in which the baseline test command cannot be spawned. -/
def envSpawnBefore : Env :=
  { sourceIsDir := true
    sourceName := "case_001"
    sourceDir := "/data/case_001"
    workspaceDir := "/tmp/case_001_patched_x5"
    beforeProc := .raises "spawn failed"
    copyTree := .ok ()
    patchIsFile := false
    applyProc := .ok { returncode := 0, stdout := "", stderr := "" }
    afterProc := .ok { returncode := 0, stdout := "", stderr := "" }
    reportGiven := false
    writeReport := .ok ()
    keepPatchedDir := false }

/-- C3 (amended): exceptions raised during patch application or the
after-run are caught inside `run` and folded into a `patch_failed`
report carrying the exception message as `patch_error` (the report being
returned whenever the optional report write does not itself raise) — but
an exception raised by the recursive workspace copy is NOT caught: it
propagates out of `run` (see the counterexample). -/
theorem C3_exception_containment (env : Env) (bp : ProcResult) (e : String)
    (r : Report) (hs : env.sourceIsDir = true)
    (hb : env.beforeProc = .ok bp) :
    (env.copyTree = .raises e → (runnerRun env).result = .raises e) ∧
    (((applyPatch env.patchIsFile env.applyProc).result = .raises e ∨
      ((applyPatch env.patchIsFile env.applyProc).result = .ok () ∧
        env.afterProc = .raises e)) →
      (runnerRun env).result = .ok r →
      r.status = "patch_failed" ∧ r.patch_error = some e) := by
  constructor
  · intro hcc
    unfold runnerRun
    rw [hs]
    simp only [Bool.true_eq_false, if_false]
    rw [hb]
    simp only [runTests]
    rw [hcc]
  · intro happly hr
    have ht : tryBlock env = (false, some e, none, false) ∨
        tryBlock env = (true, some e, none, true) := by
      rcases happly with hap | ⟨hap, haf⟩
      · exact Or.inl (by unfold tryBlock; rw [hap])
      · exact Or.inr (by unfold tryBlock; rw [hap]; simp [runTests, haf])
    unfold runnerRun at hr
    rw [hs] at hr
    simp only [Bool.true_eq_false, if_false] at hr
    rw [hb] at hr
    simp only [runTests] at hr
    cases hcc : env.copyTree with
    | raises e2 => rw [hcc] at hr; simp at hr
    | ok u =>
      rw [hcc] at hr
      cases hw : (if env.reportGiven = true then env.writeReport
          else StepResult.ok ()) with
      | raises e3 => rw [hw] at hr; simp at hr
      | ok u2 =>
        rw [hw] at hr
        simp only [StepResult.ok.injEq] at hr
        rcases ht with ht | ht <;> rw [ht] at hr <;> rw [← hr] <;>
          exact ⟨by simp [runnerStatus], rfl⟩

/-- Witness for C3: a concrete apply failure yields a `patch_failed`
report carrying the tool's stderr text. -/
theorem C3_exception_containment_witness :
    reportApplyFail.status = "patch_failed" ∧
    reportApplyFail.patch_error = some "error: corrupt patch at line 3" :=
  (C3_exception_containment envApplyFail
    { returncode := 0, stdout := "2 passed", stderr := "" }
    "error: corrupt patch at line 3" reportApplyFail rfl rfl).2
    (Or.inl (by decide)) rfl

/-- Environment for the C3 counterexample: the recursive copy of the
source tree into the workspace raises. -/
def envC3 : Env :=
  { sourceIsDir := true
    sourceName := "case_001"
    sourceDir := "/data/case_001"
    workspaceDir := "/tmp/case_001_patched_x6"
    beforeProc := .ok { returncode := 1, stdout := "1 failed", stderr := "" }
    copyTree := .raises "No space left on device"
    patchIsFile := false
    applyProc := .ok { returncode := 0, stdout := "", stderr := "" }
    afterProc := .ok { returncode := 0, stdout := "", stderr := "" }
    reportGiven := false
    writeReport := .ok ()
    keepPatchedDir := false }

/-- C3 counterexample: a failing workspace copy escapes `run` as an
exception instead of being converted into a report — `copytree` sits
before the `try` block in the source. -/
theorem C3_counterexample :
    (runnerRun envC3).result = .raises "No space left on device" ∧
    (runnerRun envC3).workspaceCreated = true :=
  ⟨rfl, rfl⟩

/-- C4 (amended): with retention disabled, the workspace directory no
longer exists whenever `run` returns a report — in particular when patch
application fails — but when the optional report write of step 7 raises,
the exception propagates and the workspace is NOT removed (the cleanup
call sits after the write, not in a finally block); see the
counterexample. -/
theorem C4_cleanup (env : Env) (r : Report)
    (hk : env.keepPatchedDir = false)
    (h : (runnerRun env).result = .ok r) :
    (runnerRun env).workspaceExists = false := by
  unfold runnerRun at h ⊢
  cases hs : env.sourceIsDir with
  | false => simp [hs] at h
  | true =>
    simp only [hs, Bool.true_eq_false, if_false] at h ⊢
    cases hb : runTests env.beforeProc with
    | raises e => rfl
    | ok before =>
      rw [hb] at h
      cases hc : env.copyTree with
      | raises e => simp [hc] at h
      | ok u =>
        rw [hc] at h
        cases hw : (if env.reportGiven = true then env.writeReport
            else StepResult.ok ()) with
        | raises e => simp [hw] at h
        | ok u2 => exact hk

/-- Witness for C4: on a concrete successful evaluation with retention
disabled, the workspace is gone when `run` returns. -/
theorem C4_cleanup_witness :
    (runnerRun envOk).workspaceExists = false :=
  C4_cleanup envOk reportOk rfl rfl

/-- Environment for the C4 counterexample: retention is disabled and
everything succeeds until the report write of step 7, which raises. -/
def envC4 : Env :=
  { sourceIsDir := true
    sourceName := "case_001"
    sourceDir := "/data/case_001"
    workspaceDir := "/tmp/case_001_patched_x7"
    beforeProc := .ok { returncode := 1, stdout := "1 failed", stderr := "" }
    copyTree := .ok ()
    patchIsFile := false
    applyProc := .ok { returncode := 0, stdout := "", stderr := "" }
    afterProc := .ok { returncode := 0, stdout := "2 passed", stderr := "" }
    reportGiven := true
    writeReport := .raises "No space left on device"
    keepPatchedDir := false }

/-- C4 counterexample: retention is disabled and the workspace was
created, yet after the report write raises, `run` propagates the
exception with the workspace still on disk. -/
theorem C4_counterexample :
    envC4.keepPatchedDir = false ∧
    (runnerRun envC4).workspaceCreated = true ∧
    (runnerRun envC4).workspaceExists = true ∧
    (runnerRun envC4).result = .raises "No space left on device" :=
  ⟨rfl, rfl, rfl, rfl⟩

/-- C5: a spawn failure of the test command during the baseline run
propagates out of `run` as the exception it is (never coerced into a
failing outcome dictionary), while the same failure during the
after-run is caught like a patch-application error and produces a
`patch_failed` report with the message as `patch_error`. -/
theorem C5_spawn_error (env : Env) (e : String) (bp ap : ProcResult)
    (r : Report) (hs : env.sourceIsDir = true) :
    (env.beforeProc = .raises e → (runnerRun env).result = .raises e) ∧
    (env.beforeProc = .ok bp → env.copyTree = .ok () →
      env.applyProc = .ok ap → ap.returncode = 0 →
      env.afterProc = .raises e →
      (runnerRun env).result = .ok r →
      r.status = "patch_failed" ∧ r.patch_error = some e ∧
      r.after = none) := by
  constructor
  · intro hbe
    unfold runnerRun
    rw [hs]
    simp only [Bool.true_eq_false, if_false]
    rw [hbe]
    simp only [runTests]
  · intro hb hc ha hrc haf hr
    have ht : tryBlock env = (true, some e, none, true) := by
      unfold tryBlock applyPatch
      rw [ha]
      simp [hrc, runTests, haf]
    unfold runnerRun at hr
    rw [hs] at hr
    simp only [Bool.true_eq_false, if_false] at hr
    rw [hb] at hr
    simp only [runTests] at hr
    rw [hc] at hr
    cases hw : (if env.reportGiven = true then env.writeReport
        else StepResult.ok ()) with
    | raises e3 => rw [hw] at hr; simp at hr
    | ok u2 =>
      rw [hw] at hr
      simp only [StepResult.ok.injEq] at hr
      rw [ht] at hr
      rw [← hr]
      exact ⟨by simp [runnerStatus], rfl, rfl⟩

/-- Witness for C5: a concrete baseline spawn failure propagates, and a
concrete after-run spawn failure yields the `patch_failed` report. -/
theorem C5_spawn_error_witness :
    (runnerRun envSpawnBefore).result = .raises "spawn failed" ∧
    (reportC1.status = "patch_failed" ∧
     reportC1.patch_error = some "No such file or directory" ∧
     reportC1.after = none) :=
  ⟨(C5_spawn_error envSpawnBefore "spawn failed"
      { returncode := 0, stdout := "", stderr := "" }
      { returncode := 0, stdout := "", stderr := "" } reportC1 rfl).1 rfl,
   (C5_spawn_error envC1 "No such file or directory"
      { returncode := 1, stdout := "1 failed", stderr := "" }
      { returncode := 0, stdout := "", stderr := "" } reportC1 rfl).2
      rfl rfl rfl rfl rfl rfl⟩

/-- C7: when the apply tool exits non-zero, the recorded `patch_error`
is the tool's stripped stderr if non-empty, else its stripped stdout if
non-empty, else the fixed message `"patch apply failed"`; the after-run
is never attempted and `after` stays absent. -/
theorem C7_apply_failure (env : Env) (bp ap : ProcResult) (r : Report)
    (hs : env.sourceIsDir = true) (hb : env.beforeProc = .ok bp)
    (hc : env.copyTree = .ok ()) (ha : env.applyProc = .ok ap)
    (hnz : ap.returncode ≠ 0) :
    (runnerRun env).afterRunAttempted = false ∧
    ((runnerRun env).result = .ok r →
      r.patch_error = some
        (if pyStrip ap.stderr ≠ "" then pyStrip ap.stderr
         else if pyStrip ap.stdout ≠ "" then pyStrip ap.stdout
         else "patch apply failed") ∧
      r.after = none) := by
  have ht : tryBlock env = (false, some (applyErrorText ap), none, false) := by
    unfold tryBlock applyPatch
    rw [ha]
    simp [hnz]
  constructor
  · unfold runnerRun
    rw [hs]
    simp only [Bool.true_eq_false, if_false]
    rw [hb]
    simp only [runTests]
    rw [hc, ht]
    cases hw : (if env.reportGiven = true then env.writeReport
        else StepResult.ok ()) with
    | raises e3 => rfl
    | ok u2 => rfl
  · intro hr
    unfold runnerRun at hr
    rw [hs] at hr
    simp only [Bool.true_eq_false, if_false] at hr
    rw [hb] at hr
    simp only [runTests] at hr
    rw [hc, ht] at hr
    cases hw : (if env.reportGiven = true then env.writeReport
        else StepResult.ok ()) with
    | raises e3 => rw [hw] at hr; simp at hr
    | ok u2 =>
      rw [hw] at hr
      simp only [StepResult.ok.injEq] at hr
      rw [← hr]
      exact ⟨rfl, rfl⟩

/-- Witness for C7: on the concrete failed apply, the report carries the
tool's stripped stderr and no after outcome, and the after-run was not
attempted. -/
theorem C7_apply_failure_witness :
    (runnerRun envApplyFail).afterRunAttempted = false ∧
    reportApplyFail.patch_error = some "error: corrupt patch at line 3" ∧
    reportApplyFail.after = none := by
  have h := C7_apply_failure envApplyFail
    { returncode := 0, stdout := "2 passed", stderr := "" }
    { returncode := 1, stdout := "", stderr := "error: corrupt patch at line 3" }
    reportApplyFail rfl rfl rfl rfl (by decide)
  have h2 := h.2 rfl
  exact ⟨h.1, by rw [h2.1]; decide, h2.2⟩

/-- C9: the temporary diff file exists exactly when the patch argument
is not an existing file (literal diff text), and the `finally` block of
`_apply_patch` removes it on every exit path — normal return, non-zero
apply exit, or a raised spawn error alike — while a patch supplied as an
existing file is used in place and never deleted. -/
theorem C9_temp_diff_lifecycle (isFile : Bool) (proc : StepResult ProcResult) :
    (applyPatch isFile proc).tempCreated = !isFile ∧
    (applyPatch isFile proc).tempDeleted = !isFile ∧
    (applyPatch isFile proc).patchFileDeleted = false :=
  ⟨rfl, rfl, rfl⟩

/-- C10: `_status(before, None, True)` is `"patch_failed"` for every
baseline outcome: an evaluation whose after-run raised after a successful
patch apply still receives a definitive `patch_failed` status. -/
theorem C10_status_after_absent (before : TestOutcome) :
    runnerStatus before none true = "patch_failed" := by
  simp [runnerStatus]

/-- C8: for every test invocation whose subprocess completes, the
outcome dictionary records the exit code and the full captured stdout
and stderr, and `passed` is true if and only if the exit code is 0. -/
theorem C8_run_tests_outcome (p : ProcResult) :
    ∃ t : TestOutcome, runTests (.ok p) = .ok t ∧
      t.returncode = p.returncode ∧ t.stdout = p.stdout ∧
      t.stderr = p.stderr ∧ (t.passed = true ↔ p.returncode = 0) := by
  refine ⟨_, rfl, rfl, rfl, rfl, ?_⟩
  simp [runTests]

end Spec2Proof
